import Mathlib

/-!
Verification of `poll_eta.py`, a one-shot ETA logger.

The script is a straight-line pipeline: a local-time window gate
(`within_window`), one HTTP call to a routing API (`routes_api_request`),
a duration-string parser (`format_duration`), unit conversions
(seconds to minutes, meters to miles, via Python `round`), and an
append to a CSV log file (`log_eta`), with a top-level handler that
prints HTTP errors specially and a traceback otherwise.

Modelling conventions:
- Python floats are modelled as exact rationals (`Rat`); the arithmetic in
  the claims (division by 60, division by 1609.34, rounding to 1 or 2
  decimals) is exact at every value the claims mention, so no IEEE
  rounding is observable there.  Python `round` is half-to-even, modelled
  by `roundHalfEven`; `int(...)` truncates toward zero, modelled by
  `truncTowardZero`.
- Python `float(str)` is modelled on plain decimal literals
  (optional sign, digits, optional decimal point): `parsePyFloatL`.
  Strings it rejects raise `ValueError` in Python; the model returns
  `none` and `format_duration` returns `Except.error ()` there.
- The CSV file is modelled as an optional list of records
  (`Option (List (List String))`), `none` meaning the file does not
  exist.  Each record is the list of its 7 fields; `csv.DictWriter`
  serialisation (quoting, 'crlf' terminators) is invertible, so records
  model lines faithfully.
- A run's external inputs (the local wall-clock time and the outcome of
  the HTTP call) are passed in as a `RunInput`; the file state is passed
  explicitly and returned.  `RunResult.networkCalled` records whether
  control reached the `routes_api_request()` call.
-/

deriving instance DecidableEq for Except

/-- Model of `datetime.datetime` as far as the script observes it:
the hour/minute/second of local wall-clock time, and the string
`isoformat(timespec="seconds")` would produce (carried opaquely). -/
structure LocalTime where
  hour : Nat
  minute : Nat
  second : Nat
  iso : String
deriving DecidableEq

/-- `ORIGIN` constant from the script. -/
def ORIGIN : String := "267 Princeton St, Boston, MA"

/-- `DESTINATION` constant from the script. -/
def DESTINATION : String := "425 Waverley Oaks Rd #250, Waltham, MA 02452"

/-- `within_window`: `5 <= local_time.hour < 20`. -/
def within_window (local_time : LocalTime) : Bool :=
  decide (5 ≤ local_time.hour ∧ local_time.hour < 20)

/-- All characters are decimal digits. -/
def allDigits (l : List Char) : Bool := l.all Char.isDigit

/-- Value of a digit string, most significant first. -/
def digitsToNat (l : List Char) : Nat :=
  l.foldl (fun a c => a * 10 + (c.toNat - 48)) 0

/-- Split the character list at the first `'.'`: the part before it and,
when a dot is present, the part after it. -/
def splitDot : List Char → List Char × Option (List Char)
  | [] => ([], none)
  | c :: rest =>
    if c = '.' then ([], some rest)
    else
      let p := splitDot rest
      (c :: p.1, p.2)

/-- Model of Python `float()` on an unsigned plain decimal literal:
`digits`, `digits.digits`, `digits.` or `.digits` (at least one digit
overall).  Returns the value as a scaled integer — the pair `(m, k)`
denotes `m / 10 ^ k` — or `none` where Python raises `ValueError`. -/
def parseUnsignedScaled (l : List Char) : Option (Nat × Nat) :=
  match splitDot l with
  | (intPart, none) =>
      if intPart ≠ [] ∧ allDigits intPart then some (digitsToNat intPart, 0)
      else none
  | (intPart, some fracPart) =>
      if (intPart ≠ [] ∨ fracPart ≠ []) ∧ allDigits intPart ∧ allDigits fracPart then
        some (digitsToNat intPart * 10 ^ fracPart.length + digitsToNat fracPart,
              fracPart.length)
      else none

/-- Model of Python `float()` on a plain decimal literal with optional
sign, as a scaled integer: `(m, k)` denotes `m / 10 ^ k`.  (Python also
accepts whitespace, exponents, `inf`/`nan` and underscores; none occur
in the claims.) -/
def parseScaled (l : List Char) : Option (Int × Nat) :=
  match l with
  | '+' :: rest => (parseUnsignedScaled rest).map (fun p => ((p.1 : Int), p.2))
  | '-' :: rest => (parseUnsignedScaled rest).map (fun p => (-(p.1 : Int), p.2))
  | _ => (parseUnsignedScaled l).map (fun p => ((p.1 : Int), p.2))

/-- The rational value a scaled integer denotes. -/
def scaledToRat (p : Int × Nat) : Rat := (p.1 : Rat) / 10 ^ p.2

/-- The rational value Python `float()` produces on a plain decimal
literal (floats are modelled as exact rationals). -/
def parsePyFloatL (l : List Char) : Option Rat :=
  (parseScaled l).map scaledToRat

/-- Python `int()` on a number: truncation toward zero. -/
def truncTowardZero (q : Rat) : Int :=
  if q < 0 then ⌈q⌉ else ⌊q⌋

/-- `str.endswith("s")` on the character list: last character is `'s'`. -/
def endsWithSL (l : List Char) : Bool :=
  match l.reverse with
  | c :: _ => c = 's'
  | [] => false

/-- `proto_str.endswith("s")` on strings. -/
def endsWithS (s : String) : Bool := endsWithSL s.data

/-- `format_duration` on the character list of the input:
`int(float(proto_str[:-1])) if proto_str and proto_str.endswith("s") else 0`.
`Except.error ()` models the `ValueError` Python raises when
`float(proto_str[:-1])` fails. -/
def formatDurationL (l : List Char) : Except Unit Int :=
  if !l.isEmpty && endsWithSL l then
    match parseScaled l.dropLast with
    | some p => Except.ok (p.1.tdiv ((10 ^ p.2 : Nat) : Int))
    | none => Except.error ()
  else Except.ok 0

/-- `format_duration` from the script (see `formatDurationL`). -/
def format_duration (proto_str : String) : Except Unit Int :=
  formatDurationL proto_str.data

/-- Python `round(x)` to an integer: round half to even. -/
def roundHalfEven (x : Rat) : Int :=
  let f : Int := ⌊x⌋
  let frac : Rat := x - (f : Rat)
  if frac < 1 / 2 then f
  else if 1 / 2 < frac then f + 1
  else if f % 2 = 0 then f else f + 1

/-- Python `round(x, n)`: round to `n` decimal places, half to even. -/
def pyRound (n : Nat) (x : Rat) : Rat :=
  (roundHalfEven (x * 10 ^ n) : Rat) / 10 ^ n

/-- `round(duration_s / 60, 1)`: seconds to minutes, 1 decimal. -/
def eta_min_of (duration_s : Int) : Rat :=
  pyRound 1 ((duration_s : Rat) / 60)

/-- `round(dist_m / 1609.34, 2)`: meters to miles, 2 decimals. -/
def dist_mi_of (dist_m : Rat) : Rat :=
  pyRound 2 (dist_m / (160934 / 100 : Rat))

/-- Python `str` of a float whose value is an exact multiple of 1/100
(every rounded value the script writes is): minimal decimal digits with
at least one fractional digit, e.g. `1.0`, `8.3`, `10.0`, `0.05`. -/
def pyFloatStr (q : Rat) : String :=
  let sign := if q < 0 then "-" else ""
  let m : Nat := q.num.natAbs * 100 / q.den
  let ip := m / 100
  let f := m % 100
  let fracStr :=
    if f % 10 = 0 then toString (f / 10)
    else toString (f / 10) ++ toString (f % 10)
  sign ++ toString ip ++ "." ++ fracStr

/-- One route object of the JSON response.  Each field is `Option`al:
`none` models the key being absent from the object (`r["k"]` then raises
`KeyError`; `r.get("description", "")` defaults instead). -/
structure Route where
  duration : Option String
  staticDuration : Option String
  distanceMeters : Option Rat
  description : Option String
deriving DecidableEq

/-- Outcome of `routes_api_request()`: either `raise_for_status()` raised
an `HTTPError` carrying the status code and response body, or the call
succeeded and `data.get("routes", [])` is the given list (a response
without the key gives `[]`). -/
inductive FetchResult where
  | httpError (status : Nat) (body : String)
  | ok (routes : List Route)
deriving DecidableEq

/-- The external inputs of one run: the local wall-clock time and what
the HTTP call would return if made. -/
structure RunInput where
  time : LocalTime
  fetch : FetchResult
deriving DecidableEq

/-- How one run of `log_eta` ends.  `skipped`, `noRoutes` and `logged`
are the three normal returns; `httpError`, `keyError` and `valueError`
are the exceptions it can raise (caught by the `__main__` handler). -/
inductive RunOutcome where
  | skipped
  | httpError (status : Nat) (body : String)
  | noRoutes
  | keyError (key : String)
  | valueError
  | logged (row : List String)
deriving DecidableEq

/-- Header row of the CSV file: the `fieldnames` of the `DictWriter`,
in the fixed order of the `row` dict. -/
def LOG_HEADER : List String :=
  ["timestamp", "origin", "destination", "distance_mi", "eta_min",
   "freeflow_min", "route_description"]

/-- Lines 73-91 of the script: field lookups on the first route (in
Python evaluation order: `duration`, then `staticDuration`, then
`distanceMeters`, with `description` defaulted), duration parsing, unit
conversion, and assembly of the 7-field row. -/
def routeRow (t : LocalTime) (r : Route) : RunOutcome :=
  match r.duration with
  | none => RunOutcome.keyError "duration"
  | some dstr =>
    match format_duration dstr with
    | Except.error _ => RunOutcome.valueError
    | Except.ok duration_s =>
      match r.staticDuration with
      | none => RunOutcome.keyError "staticDuration"
      | some sstr =>
        match format_duration sstr with
        | Except.error _ => RunOutcome.valueError
        | Except.ok static_s =>
          match r.distanceMeters with
          | none => RunOutcome.keyError "distanceMeters"
          | some dist_m =>
            RunOutcome.logged
              [t.iso, ORIGIN, DESTINATION,
               pyFloatStr (dist_mi_of dist_m),
               pyFloatStr (eta_min_of duration_s),
               pyFloatStr (eta_min_of static_s),
               r.description.getD ""]

/-- The control flow of `log_eta` up to (but not including) the file
write: window gate, HTTP call, empty-routes check, then `routeRow`. -/
def computeOutcome (i : RunInput) : RunOutcome :=
  if within_window i.time then
    match i.fetch with
    | FetchResult.httpError s b => RunOutcome.httpError s b
    | FetchResult.ok [] => RunOutcome.noRoutes
    | FetchResult.ok (r :: _) => routeRow i.time r
  else RunOutcome.skipped

/-- Lines 93-98: `write_header = not os.path.exists(log_path)`, open in
append mode, write the header iff the file was absent, then the row. -/
def appendRow (file : Option (List (List String))) (row : List String) :
    List (List String) :=
  match file with
  | none => [LOG_HEADER, row]
  | some recs => recs ++ [row]

/-- What one run leaves behind: the outcome, whether the HTTP request
was issued, and the file state after the run. -/
structure RunResult where
  outcome : RunOutcome
  networkCalled : Bool
  file : Option (List (List String))
deriving DecidableEq

/-- `log_eta` as a state transformer on the log file.  The row is fully
computed before the file is opened (as in the script), and the file is
touched only on the `logged` outcome. -/
def log_eta (i : RunInput) (file : Option (List (List String))) : RunResult :=
  { outcome := computeOutcome i
    networkCalled := within_window i.time
    file :=
      match computeOutcome i with
      | RunOutcome.logged row => some (appendRow file row)
      | _ => file }

/-- What the `__main__` block prints for each way `log_eta` ends:
the skip notice and the "No routes returned." / JSON summary prints
happen inside `log_eta`; an `HTTPError` is reported with its status and
body; any other exception gets `traceback.print_exc()`. -/
inductive TopReport where
  | skipNotice
  | noRoutesMsg
  | summary (row : List String)
  | httpReport (status : Nat) (body : String)
  | trace
deriving DecidableEq

/-- Lines 102-111: the top-level handler, as a function of the outcome. -/
def main_report : RunOutcome → TopReport
  | RunOutcome.skipped => TopReport.skipNotice
  | RunOutcome.noRoutes => TopReport.noRoutesMsg
  | RunOutcome.logged row => TopReport.summary row
  | RunOutcome.httpError s b => TopReport.httpReport s b
  | RunOutcome.keyError _ => TopReport.trace
  | RunOutcome.valueError => TopReport.trace

/-- Iterated runs: thread the file state through a list of runs. -/
def runAll : List RunInput → Option (List (List String)) →
    Option (List (List String))
  | [], file => file
  | i :: is, file => runAll is (log_eta i file).file

/-- The data row a run writes (meaningful when the run reaches the
`logged` outcome). -/
def rowOf (i : RunInput) : List String :=
  match computeOutcome i with
  | RunOutcome.logged row => row
  | _ => []

/-- A run that ends with a row written. -/
def Succeeds (i : RunInput) : Prop :=
  ∃ row, computeOutcome i = RunOutcome.logged row

/-- Content of the (possibly absent) log file, as a list of records. -/
def fileRecs : Option (List (List String)) → List (List String)
  | none => []
  | some recs => recs

/-- An in-window sample local time (09:30:00). -/
def sampleTime : LocalTime := ⟨9, 30, 0, "2026-10-12T09:30:00"⟩

/-- An out-of-window sample local time (22:05:00). -/
def lateTime : LocalTime := ⟨22, 5, 0, "2026-10-12T22:05:00"⟩

/-- The sample route of spec §8: duration "600s", static "500s",
distance 16093.4 m, description "I-95 N". -/
def sampleRoute : Route :=
  ⟨some "600s", some "500s", some (160934 / 10 : Rat), some "I-95 N"⟩

/-- A successful sample run input. -/
def sampleInput : RunInput := ⟨sampleTime, FetchResult.ok [sampleRoute]⟩

/-! ## Helper lemmas -/

/-- `Int.tdiv` by a positive power-of-ten denominator is exactly Python
`int()` (truncation toward zero) of the rational quotient. -/
theorem tdiv_cast_eq_trunc (m : Int) (n : Nat) (hn : 0 < n) :
    m.tdiv ((n : Nat) : Int) = truncTowardZero ((m : Rat) / (n : Rat)) := by
  have hnQ : (0 : Rat) < (n : Rat) := by exact_mod_cast hn
  cases m with
  | ofNat a =>
      have h0 : ¬ (((Int.ofNat a : Int) : Rat) / (n : Rat) < 0) := by
        push_cast [Int.ofNat_eq_natCast]
        exact not_lt.2 (div_nonneg (Nat.cast_nonneg a) (le_of_lt hnQ))
      rw [truncTowardZero, if_neg h0]
      have hc : ((Int.ofNat a : Int) : Rat) / (n : Rat)
          = ((a : Nat) : Rat) / ((n : Nat) : Rat) := by
        push_cast [Int.ofNat_eq_natCast]
        ring
      rw [hc, Rat.floor_natCast_div_natCast, ← Int.ofNat_ediv]
      exact (Int.ofNat_tdiv a n).symm
  | negSucc a =>
      have hneg : ((Int.negSucc a : Int) : Rat) / (n : Rat) < 0 := by
        apply div_neg_of_neg_of_pos _ hnQ
        exact_mod_cast Int.negSucc_lt_zero a
      rw [truncTowardZero, if_pos hneg]
      have hc : ((Int.negSucc a : Int) : Rat) / (n : Rat)
          = -(((a + 1 : Nat) : Rat) / ((n : Nat) : Rat)) := by
        push_cast [Int.negSucc_eq]
        ring
      rw [hc, Int.ceil_neg, Rat.floor_natCast_div_natCast, ← Int.ofNat_ediv]
      rfl

/-- Appending a final `'s'` makes `endswith("s")` true. -/
theorem endsWithSL_concat (l : List Char) : endsWithSL (l ++ ['s']) = true := by
  simp [endsWithSL, List.reverse_append]

/-- A list with a final element is nonempty. -/
theorem isEmpty_concat (l : List Char) : (l ++ ['s']).isEmpty = false := by
  cases l <;> rfl

/-! ## Claim theorems -/

/-- C2: `within_window` returns true iff the hour-of-day lies in the
inclusive-exclusive interval [5, 20), regardless of minutes and
seconds (and of the formatted timestamp). -/
theorem C2_window_gate (h m s : Nat) (iso : String) :
    within_window ⟨h, m, s, iso⟩ = true ↔ (5 ≤ h ∧ h < 20) := by
  simp [within_window]

/-- C1, counterexample: the claim says `format_duration` returns 0 on
every malformed string, but on `"s"` (malformed: it ends with the unit
character yet `float("")` has nothing to parse) the code raises a
`ValueError` instead of returning 0. -/
theorem C1_counterexample :
    format_duration "s" = Except.error ()
    ∧ ¬ format_duration "s" = Except.ok 0 := by
  refine ⟨rfl, ?_⟩
  intro hcontra
  rw [show format_duration "s" = Except.error () from rfl] at hcontra
  exact Except.noConfusion hcontra

/-- C1, amended: for every string that does not end with the trailing
unit character `'s'` — including the empty string — `format_duration`
returns 0 without failing; a string that ends in `'s'` but whose
remainder is not a valid float literal instead raises a `ValueError`
(see the counterexample). -/
theorem C1_amended_returns_zero (s : String) (h : endsWithS s = false) :
    format_duration s = Except.ok 0 := by
  rw [endsWithS] at h
  rw [format_duration, formatDurationL, h]
  simp

/-- C1 witness: the amended theorem applied to the string `"abc"`. -/
theorem C1_amended_returns_zero_witness :
    endsWithS "abc" = false ∧ format_duration "abc" = Except.ok 0 :=
  ⟨rfl, C1_amended_returns_zero "abc" rfl⟩

/-- C8: for every well-formed duration string `"<number>s"`,
`format_duration` strips the trailing unit character, converts the
remainder to its numeric value, and truncates toward zero; in
particular it returns 123 on `"123s"` and 0 on `"0.9s"`. -/
theorem C8_wellformed_duration :
    (∀ (l : List Char) (q : Rat), parsePyFloatL l = some q →
        format_duration (String.mk (l ++ ['s'])) = Except.ok (truncTowardZero q))
    ∧ format_duration "123s" = Except.ok 123
    ∧ format_duration "0.9s" = Except.ok 0 := by
  refine ⟨?_, by decide, by decide⟩
  intro l q hq
  rw [parsePyFloatL] at hq
  cases hp : parseScaled l with
  | none => rw [hp] at hq; exact Option.noConfusion hq
  | some p =>
      rw [hp, Option.map_some'] at hq
      have hqp : scaledToRat p = q := Option.some.inj hq
      subst hqp
      have hdata : (String.mk (l ++ ['s'])).data = l ++ ['s'] := rfl
      rw [format_duration, hdata, formatDurationL, isEmpty_concat,
        endsWithSL_concat]
      simp only [Bool.not_false, Bool.and_self, if_true, List.dropLast_concat, hp]
      rw [tdiv_cast_eq_trunc p.1 (10 ^ p.2) (pow_pos (by norm_num) p.2),
        scaledToRat]
      norm_num

/-- C8 witness: the general statement applied to the literal `"123"`. -/
theorem C8_wellformed_duration_witness :
    parsePyFloatL "123".data = some (123 : Rat)
    ∧ format_duration (String.mk ("123".data ++ ['s']))
        = Except.ok (truncTowardZero (123 : Rat)) := by
  have hp : parsePyFloatL "123".data = some (123 : Rat) := by
    have hs : parseScaled "123".data = some ((123 : Int), 0) := by decide
    rw [parsePyFloatL, hs, Option.map_some']
    norm_num [scaledToRat]
  exact ⟨hp, C8_wellformed_duration.1 "123".data 123 hp⟩

/-- C9: the unit conversions used for the log row: seconds become
minutes via division by 60 rounded to 1 decimal, meters become miles
via division by 1609.34 rounded to 2 decimals; in particular 1609.34
meters is 1.00 miles and 90 seconds is 1.5 minutes. -/
theorem C9_unit_conversion :
    (∀ d : Int, eta_min_of d = pyRound 1 ((d : Rat) / 60))
    ∧ (∀ m : Rat, dist_mi_of m = pyRound 2 (m / (160934 / 100 : Rat)))
    ∧ dist_mi_of (1609.34 : Rat) = 1
    ∧ eta_min_of 90 = (1.5 : Rat) := by
  refine ⟨fun d => rfl, fun m => rfl, ?_, ?_⟩
  · have h1 : (1609.34 : Rat) / (160934 / 100 : Rat) = 1 := by norm_num
    rw [dist_mi_of, pyRound, h1]
    norm_num [roundHalfEven]
  · rw [eta_min_of, pyRound]
    push_cast
    rw [show ((90 : Rat) / 60) = 3 / 2 by norm_num]
    norm_num [roundHalfEven]

/-- Any row `routeRow` logs has the shape
`[timestamp, ORIGIN, DESTINATION, distance, eta, freeflow, description]`. -/
theorem routeRow_logged_shape (t : LocalTime) (r : Route) (row : List String)
    (h : routeRow t r = RunOutcome.logged row) :
    ∃ a d e f g, row = [a, ORIGIN, DESTINATION, d, e, f, g] := by
  unfold routeRow at h
  repeat' split at h
  any_goals exact RunOutcome.noConfusion h
  injection h with h2
  exact ⟨_, _, _, _, _, h2.symm⟩

/-- Same shape fact lifted to `computeOutcome`. -/
theorem computeOutcome_logged_shape (i : RunInput) (row : List String)
    (h : computeOutcome i = RunOutcome.logged row) :
    ∃ a d e f g, row = [a, ORIGIN, DESTINATION, d, e, f, g] := by
  unfold computeOutcome at h
  split at h
  · split at h
    · exact absurd h (by simp)
    · exact absurd h (by simp)
    · exact routeRow_logged_shape _ _ _ h
  · exact absurd h (by simp)

/-- A logged row has exactly 7 fields and differs from the header. -/
theorem computeOutcome_logged_row_ok (i : RunInput) (row : List String)
    (h : computeOutcome i = RunOutcome.logged row) :
    row.length = 7 ∧ row ≠ LOG_HEADER := by
  obtain ⟨a, d, e, f, g, rfl⟩ := computeOutcome_logged_shape i row h
  refine ⟨rfl, ?_⟩
  intro hcontra
  rw [LOG_HEADER] at hcontra
  have horigin : ORIGIN = "origin" := (List.cons.inj (List.cons.inj hcontra).2).1
  rw [ORIGIN] at horigin
  exact absurd horigin (by decide)

/-- A run that logs a row appends exactly that row. -/
theorem log_eta_file_logged (i : RunInput) (file : Option (List (List String)))
    (row : List String) (h : computeOutcome i = RunOutcome.logged row) :
    (log_eta i file).file = some (appendRow file row) := by
  simp [log_eta, h]

/-- Threading successful runs through `runAll` from an existing file
appends one row per run. -/
theorem runAll_append (is : List RunInput) (recs : List (List String))
    (h : ∀ i ∈ is, Succeeds i) :
    runAll is (some recs) = some (recs ++ is.map rowOf) := by
  induction is generalizing recs with
  | nil => simp [runAll]
  | cons i rest ih =>
      obtain ⟨row, hrow⟩ := h i (List.mem_cons_self i rest)
      have hr : rowOf i = row := by simp [rowOf, hrow]
      rw [runAll, log_eta_file_logged i (some recs) row hrow]
      rw [appendRow, ih (recs ++ [row]) (fun j hj => h j (List.mem_cons_of_mem i hj))]
      simp [hr]

/-- C3: starting from an absent file, N ≥ 1 successful runs produce
exactly one header record followed by the N data rows in run order;
every data row has 7 fields and is distinct from the header (so the
header occurs exactly once, written on first creation). -/
theorem C3_roundtrip (is : List RunInput) (hne : is ≠ [])
    (hs : ∀ i ∈ is, Succeeds i) :
    runAll is none = some (LOG_HEADER :: is.map rowOf)
    ∧ (is.map rowOf).length = is.length
    ∧ ∀ row ∈ is.map rowOf, row.length = 7 ∧ row ≠ LOG_HEADER := by
  refine ⟨?_, by simp, ?_⟩
  · cases is with
    | nil => exact absurd rfl hne
    | cons i rest =>
        obtain ⟨row, hrow⟩ := hs i (List.mem_cons_self i rest)
        have hr : rowOf i = row := by simp [rowOf, hrow]
        rw [runAll, log_eta_file_logged i none row hrow, appendRow]
        rw [runAll_append rest [LOG_HEADER, row]
          (fun j hj => hs j (List.mem_cons_of_mem i hj))]
        simp [hr]
  · intro row hrowmem
    obtain ⟨j, hj, hjr⟩ := List.mem_map.1 hrowmem
    obtain ⟨rowj, hrowj⟩ := hs j hj
    have hr : rowOf j = rowj := by simp [rowOf, hrowj]
    rw [← hjr, hr]
    exact computeOutcome_logged_row_ok j rowj hrowj

/-- C3 witness: one successful sample run on a fresh path. -/
theorem C3_roundtrip_witness :
    ([sampleInput] ≠ ([] : List RunInput))
    ∧ (∀ i ∈ [sampleInput], Succeeds i)
    ∧ (runAll [sampleInput] none = some (LOG_HEADER :: [sampleInput].map rowOf)
       ∧ ([sampleInput].map rowOf).length = [sampleInput].length
       ∧ ∀ row ∈ [sampleInput].map rowOf, row.length = 7 ∧ row ≠ LOG_HEADER) := by
  have hs : ∀ i ∈ [sampleInput], Succeeds i := by
    intro i hi
    rw [List.mem_singleton] at hi
    subst hi
    exact ⟨_, rfl⟩
  exact ⟨by simp, hs, C3_roundtrip [sampleInput] (by simp) hs⟩

/-- C4: append-only invariant: one invocation of `log_eta`, on any prior
file content, leaves the prior content as an unmodified prefix and adds
at most two records (the data row, preceded by the header when the file
was just created). -/
theorem C4_append_only (i : RunInput) (file : Option (List (List String))) :
    ∃ t, fileRecs (log_eta i file).file = fileRecs file ++ t ∧ t.length ≤ 2 := by
  cases hco : computeOutcome i with
  | logged row =>
      cases file with
      | none =>
          exact ⟨[LOG_HEADER, row],
            by simp [log_eta, hco, appendRow, fileRecs], by simp⟩
      | some recs =>
          exact ⟨[row], by simp [log_eta, hco, appendRow, fileRecs], by simp⟩
  | skipped => exact ⟨[], by simp [log_eta, hco, fileRecs], by simp⟩
  | httpError s b => exact ⟨[], by simp [log_eta, hco, fileRecs], by simp⟩
  | noRoutes => exact ⟨[], by simp [log_eta, hco, fileRecs], by simp⟩
  | keyError k => exact ⟨[], by simp [log_eta, hco, fileRecs], by simp⟩
  | valueError => exact ⟨[], by simp [log_eta, hco, fileRecs], by simp⟩

/-- C5: in-window run whose response carries zero routes: the outcome is
the "No routes returned." console message and the file state —
pre-existing or absent — is exactly unchanged. -/
theorem C5_empty_routes (t : LocalTime) (file : Option (List (List String)))
    (hw : within_window t = true) :
    (log_eta ⟨t, FetchResult.ok []⟩ file).outcome = RunOutcome.noRoutes
    ∧ (log_eta ⟨t, FetchResult.ok []⟩ file).file = file
    ∧ main_report (log_eta ⟨t, FetchResult.ok []⟩ file).outcome
        = TopReport.noRoutesMsg := by
  simp [log_eta, computeOutcome, hw, main_report]

/-- C5 witness: an empty route list at the in-window sample time with no
pre-existing file. -/
theorem C5_empty_routes_witness :
    within_window sampleTime = true
    ∧ ((log_eta ⟨sampleTime, FetchResult.ok []⟩ none).outcome = RunOutcome.noRoutes
       ∧ (log_eta ⟨sampleTime, FetchResult.ok []⟩ none).file = none
       ∧ main_report (log_eta ⟨sampleTime, FetchResult.ok []⟩ none).outcome
           = TopReport.noRoutesMsg) :=
  ⟨rfl, C5_empty_routes sampleTime none rfl⟩

/-- C6: in-window run whose HTTP response has a non-success status: the
fetch raises an `HTTPError` carrying the status and body, the top level
reports exactly that status and body, and the log file is unchanged. -/
theorem C6_http_error (t : LocalTime) (file : Option (List (List String)))
    (status : Nat) (body : String) (hw : within_window t = true) :
    (log_eta ⟨t, FetchResult.httpError status body⟩ file).outcome
        = RunOutcome.httpError status body
    ∧ (log_eta ⟨t, FetchResult.httpError status body⟩ file).file = file
    ∧ main_report (log_eta ⟨t, FetchResult.httpError status body⟩ file).outcome
        = TopReport.httpReport status body := by
  simp [log_eta, computeOutcome, hw, main_report]

/-- C6 witness: HTTP 403 at the in-window sample time. -/
theorem C6_http_error_witness :
    within_window sampleTime = true
    ∧ ((log_eta ⟨sampleTime, FetchResult.httpError 403 "denied"⟩ none).outcome
          = RunOutcome.httpError 403 "denied"
       ∧ (log_eta ⟨sampleTime, FetchResult.httpError 403 "denied"⟩ none).file = none
       ∧ main_report
           (log_eta ⟨sampleTime, FetchResult.httpError 403 "denied"⟩ none).outcome
           = TopReport.httpReport 403 "denied") :=
  ⟨rfl, C6_http_error sampleTime none 403 "denied" rfl⟩

/-- C7: frame property of the out-of-window skip: whatever the HTTP call
would have returned, no network call is made, the file is untouched, and
the run only prints the skip notice. -/
theorem C7_skip_frame (t : LocalTime) (fr : FetchResult)
    (file : Option (List (List String))) (hw : within_window t = false) :
    (log_eta ⟨t, fr⟩ file).networkCalled = false
    ∧ (log_eta ⟨t, fr⟩ file).file = file
    ∧ (log_eta ⟨t, fr⟩ file).outcome = RunOutcome.skipped
    ∧ main_report (log_eta ⟨t, fr⟩ file).outcome = TopReport.skipNotice := by
  simp [log_eta, computeOutcome, hw, main_report]

/-- C7 witness: a 22:05 run is skipped without network call or write. -/
theorem C7_skip_frame_witness :
    within_window lateTime = false
    ∧ ((log_eta ⟨lateTime, FetchResult.ok [sampleRoute]⟩ none).networkCalled = false
       ∧ (log_eta ⟨lateTime, FetchResult.ok [sampleRoute]⟩ none).file = none
       ∧ (log_eta ⟨lateTime, FetchResult.ok [sampleRoute]⟩ none).outcome
           = RunOutcome.skipped
       ∧ main_report (log_eta ⟨lateTime, FetchResult.ok [sampleRoute]⟩ none).outcome
           = TopReport.skipNotice) :=
  ⟨rfl, C7_skip_frame lateTime (FetchResult.ok [sampleRoute]) none rfl⟩

/-- C10: response-shape edge cases on the first route: a missing
`duration`, `staticDuration` or `distanceMeters` key raises a `KeyError`
naming that key (the preceding fields having been read successfully),
which the top level reports as a generic traceback, and no row is
appended; a missing `description` key is tolerated, defaults to the
empty string, and the row is still written. -/
theorem C10_response_shape (t : LocalTime) (hw : within_window t = true) :
    (∀ (sd : Option String) (dm : Option Rat) (dsc : Option String)
        (file : Option (List (List String))),
      (log_eta ⟨t, FetchResult.ok [⟨none, sd, dm, dsc⟩]⟩ file).outcome
          = RunOutcome.keyError "duration"
      ∧ (log_eta ⟨t, FetchResult.ok [⟨none, sd, dm, dsc⟩]⟩ file).file = file
      ∧ main_report (RunOutcome.keyError "duration") = TopReport.trace)
    ∧ (∀ (d : String) (k : Int) (dm : Option Rat) (dsc : Option String)
        (file : Option (List (List String))),
      format_duration d = Except.ok k →
      (log_eta ⟨t, FetchResult.ok [⟨some d, none, dm, dsc⟩]⟩ file).outcome
          = RunOutcome.keyError "staticDuration"
      ∧ (log_eta ⟨t, FetchResult.ok [⟨some d, none, dm, dsc⟩]⟩ file).file = file)
    ∧ (∀ (d sd : String) (k k2 : Int) (dsc : Option String)
        (file : Option (List (List String))),
      format_duration d = Except.ok k → format_duration sd = Except.ok k2 →
      (log_eta ⟨t, FetchResult.ok [⟨some d, some sd, none, dsc⟩]⟩ file).outcome
          = RunOutcome.keyError "distanceMeters"
      ∧ (log_eta ⟨t, FetchResult.ok [⟨some d, some sd, none, dsc⟩]⟩ file).file
          = file)
    ∧ (∀ (d sd : String) (k k2 : Int) (dm : Rat)
        (file : Option (List (List String))),
      format_duration d = Except.ok k → format_duration sd = Except.ok k2 →
      (log_eta ⟨t, FetchResult.ok [⟨some d, some sd, some dm, none⟩]⟩ file).outcome
          = RunOutcome.logged
              [t.iso, ORIGIN, DESTINATION, pyFloatStr (dist_mi_of dm),
               pyFloatStr (eta_min_of k), pyFloatStr (eta_min_of k2), ""]
      ∧ (log_eta ⟨t, FetchResult.ok [⟨some d, some sd, some dm, none⟩]⟩ file).file
          = some (appendRow file
              [t.iso, ORIGIN, DESTINATION, pyFloatStr (dist_mi_of dm),
               pyFloatStr (eta_min_of k), pyFloatStr (eta_min_of k2), ""])) := by
  refine ⟨?_, ?_, ?_, ?_⟩
  · intro sd dm dsc file
    refine ⟨?_, ?_, rfl⟩ <;> simp [log_eta, computeOutcome, routeRow, hw]
  · intro d k dm dsc file hd
    constructor <;> simp [log_eta, computeOutcome, routeRow, hw, hd]
  · intro d sd k k2 dsc file hd hsd
    constructor <;> simp [log_eta, computeOutcome, routeRow, hw, hd, hsd]
  · intro d sd k k2 dm file hd hsd
    constructor <;> simp [log_eta, computeOutcome, routeRow, hw, hd, hsd]

/-- C10 witness: the sample route with each key removed in turn at the
in-window sample time, on a fresh path. -/
theorem C10_response_shape_witness :
    within_window sampleTime = true
    ∧ format_duration "600s" = Except.ok 600
    ∧ format_duration "500s" = Except.ok 500
    ∧ ((log_eta ⟨sampleTime,
          FetchResult.ok [⟨none, some "500s", some (160934 / 10 : Rat),
            some "I-95 N"⟩]⟩ none).outcome = RunOutcome.keyError "duration"
       ∧ (log_eta ⟨sampleTime,
          FetchResult.ok [⟨none, some "500s", some (160934 / 10 : Rat),
            some "I-95 N"⟩]⟩ none).file = none
       ∧ main_report (RunOutcome.keyError "duration") = TopReport.trace)
    ∧ ((log_eta ⟨sampleTime,
          FetchResult.ok [⟨some "600s", some "500s", some (160934 / 10 : Rat),
            none⟩]⟩ none).outcome
          = RunOutcome.logged
              [sampleTime.iso, ORIGIN, DESTINATION,
               pyFloatStr (dist_mi_of (160934 / 10 : Rat)),
               pyFloatStr (eta_min_of 600), pyFloatStr (eta_min_of 500), ""]
       ∧ (log_eta ⟨sampleTime,
          FetchResult.ok [⟨some "600s", some "500s", some (160934 / 10 : Rat),
            none⟩]⟩ none).file
          = some (appendRow none
              [sampleTime.iso, ORIGIN, DESTINATION,
               pyFloatStr (dist_mi_of (160934 / 10 : Rat)),
               pyFloatStr (eta_min_of 600), pyFloatStr (eta_min_of 500), ""])) :=
  ⟨rfl, by decide, by decide,
    (C10_response_shape sampleTime rfl).1 (some "500s")
      (some (160934 / 10 : Rat)) (some "I-95 N") none,
    (C10_response_shape sampleTime rfl).2.2.2 "600s" "500s" 600 500
      (160934 / 10 : Rat) none (by decide) (by decide)⟩
